import Mathlib

/-!
Shallow embedding of the `astcenc-rs` wrapper crate (src/src/lib.rs).

The crate is a safe orchestration layer around ARM's `astc-encoder` native
engine, reached through the generated `astcenc-sys` bindings.  The engine
itself is an external black box: we model every engine entry point by the
status code it returns (supplied as an explicit oracle argument) together
with a trace of the calls that were issued, and we model the native
context's internal compression state (clean vs. needs-reset) after the
lifecycle discipline the engine imposes.  All Rust `u32` arithmetic is
embedded as `Nat` arithmetic reduced modulo `2^32` (release-mode wrapping
semantics), and `usize` arithmetic modulo `2^64` (64-bit target).

Pixel payloads cross the FFI boundary only as raw pointers, so image
buffers are observed by this layer exclusively through their lengths; the
embedding records a buffer by its length.  The `DataType::as_u8s`
reinterpretation is modelled separately at the level of Rust fat pointers
(data pointer + length field) over an explicit byte memory.
-/

namespace AstcencRs

/-- Modulus of Rust `u32` arithmetic. -/
def U32_MOD : Nat := 4294967296

/-- Modulus of Rust `usize` arithmetic on the 64-bit targets the crate supports. -/
def USIZE_MOD : Nat := 18446744073709551616

/-- Reduce a value to Rust `u32` wrapping semantics. -/
def wrap32 (n : Nat) : Nat := n % U32_MOD

/-- Engine status code `ASTCENC_SUCCESS` from the `astcenc-sys` bindings.
The numeric values of this block of constants are those of the generated
bindings (the C `astcenc_error` enum); the wrapper only ever compares
against them by name. -/
def ASTCENC_SUCCESS : Nat := 0

/-- Engine status code `ASTCENC_ERR_OUT_OF_MEM`. -/
def ASTCENC_ERR_OUT_OF_MEM : Nat := 1

/-- Engine status code `ASTCENC_ERR_BAD_CPU_FLOAT`. -/
def ASTCENC_ERR_BAD_CPU_FLOAT : Nat := 2

/-- Engine status code `ASTCENC_ERR_BAD_PARAM`. -/
def ASTCENC_ERR_BAD_PARAM : Nat := 3

/-- Engine status code `ASTCENC_ERR_BAD_BLOCK_SIZE`. -/
def ASTCENC_ERR_BAD_BLOCK_SIZE : Nat := 4

/-- Engine status code `ASTCENC_ERR_BAD_PROFILE`. -/
def ASTCENC_ERR_BAD_PROFILE : Nat := 5

/-- Engine status code `ASTCENC_ERR_BAD_QUALITY`. -/
def ASTCENC_ERR_BAD_QUALITY : Nat := 6

/-- Engine status code `ASTCENC_ERR_BAD_SWIZZLE`. -/
def ASTCENC_ERR_BAD_SWIZZLE : Nat := 7

/-- Engine status code `ASTCENC_ERR_BAD_FLAGS`. -/
def ASTCENC_ERR_BAD_FLAGS : Nat := 8

/-- Engine status code `ASTCENC_ERR_BAD_CONTEXT`. -/
def ASTCENC_ERR_BAD_CONTEXT : Nat := 9

/-- Engine status code `ASTCENC_ERR_NOT_IMPLEMENTED`. -/
def ASTCENC_ERR_NOT_IMPLEMENTED : Nat := 10

/-- Engine status code `ASTCENC_ERR_BAD_DECODE_MODE`. -/
def ASTCENC_ERR_BAD_DECODE_MODE : Nat := 11

/-- The status codes named (success or error) in the wrapper's `match`. -/
def knownStatusCodes : List Nat :=
  [ASTCENC_SUCCESS, ASTCENC_ERR_BAD_BLOCK_SIZE, ASTCENC_ERR_BAD_CONTEXT,
   ASTCENC_ERR_BAD_CPU_FLOAT, ASTCENC_ERR_BAD_DECODE_MODE, ASTCENC_ERR_BAD_FLAGS,
   ASTCENC_ERR_BAD_PARAM, ASTCENC_ERR_BAD_QUALITY, ASTCENC_ERR_BAD_PROFILE,
   ASTCENC_ERR_BAD_SWIZZLE, ASTCENC_ERR_NOT_IMPLEMENTED, ASTCENC_ERR_OUT_OF_MEM]

/-- The crate's `Error` enum: an error during initialization, compression or
decompression. -/
inductive Error
  | BadBlockSize
  | BadContext
  | BadCpuFloat
  | BadDecodeMode
  | BadFlags
  | BadParam
  | BadQuality
  | BadProfile
  | BadSwizzle
  | NotImplemented
  | OutOfMem
  | Unknown
deriving DecidableEq

/-- The crate's `error_code_to_result`: translate a native status code into
`Ok(())` or a typed `Error`.  The Rust `match` on the named `astcenc-sys`
constants, with the wildcard arm mapping everything else to `Unknown`. -/
def error_code_to_result (code : Nat) : Except Error Unit :=
  if code = ASTCENC_SUCCESS then .ok ()
  else if code = ASTCENC_ERR_BAD_BLOCK_SIZE then .error .BadBlockSize
  else if code = ASTCENC_ERR_BAD_CONTEXT then .error .BadContext
  else if code = ASTCENC_ERR_BAD_CPU_FLOAT then .error .BadCpuFloat
  else if code = ASTCENC_ERR_BAD_DECODE_MODE then .error .BadDecodeMode
  else if code = ASTCENC_ERR_BAD_FLAGS then .error .BadFlags
  else if code = ASTCENC_ERR_BAD_PARAM then .error .BadParam
  else if code = ASTCENC_ERR_BAD_QUALITY then .error .BadQuality
  else if code = ASTCENC_ERR_BAD_PROFILE then .error .BadProfile
  else if code = ASTCENC_ERR_BAD_SWIZZLE then .error .BadSwizzle
  else if code = ASTCENC_ERR_NOT_IMPLEMENTED then .error .NotImplemented
  else if code = ASTCENC_ERR_OUT_OF_MEM then .error .OutOfMem
  else .error .Unknown

/-- The crate's `Extents`: a 3-dimensional width/height/depth, components are
Rust `u32` values. -/
structure Extents where
  x : Nat
  y : Nat
  z : Nat
deriving DecidableEq

/-- `Extents::new`: a 2D extent (depth set to 1). -/
def Extents.new (x y : Nat) : Extents := ⟨x, y, 1⟩

/-- `Extents::new_3d`. -/
def Extents.new_3d (x y z : Nat) : Extents := ⟨x, y, z⟩

/-- `Extents::default_block_size`: 4x4x1. -/
def Extents.default_block_size : Extents := Extents.new 4 4

/-- The crate's `Profile` enum: the color profile. -/
inductive Profile
  | HdrRgba
  | HdrRgbLdrA
  | LdrRgba
  | LdrSrgb
deriving DecidableEq

/-- `Profile::default`: `LdrRgba`. -/
def Profile.default : Profile := .LdrRgba

/-- `Profile::into_sys`, to the `astcenc_profile` values of the bindings
(distinct codes; the wrapper only passes them through). -/
def Profile.into_sys : Profile → Nat
  | .HdrRgba => 2
  | .HdrRgbLdrA => 1
  | .LdrRgba => 0
  | .LdrSrgb => 3

/-- The crate's `Preset` newtype around the engine's `f32` quality presets.
The `ASTCENC_PRE_*` constants all have integral values, recorded here as
naturals. -/
structure Preset where
  val : Nat
deriving DecidableEq

/-- `PRESET_FASTEST` (`ASTCENC_PRE_FASTEST`, 0.0). -/
def PRESET_FASTEST : Preset := ⟨0⟩

/-- `PRESET_FAST` (`ASTCENC_PRE_FAST`, 10.0). -/
def PRESET_FAST : Preset := ⟨10⟩

/-- `PRESET_MEDIUM` (`ASTCENC_PRE_MEDIUM`, 60.0). -/
def PRESET_MEDIUM : Preset := ⟨60⟩

/-- `PRESET_THOROUGH` (`ASTCENC_PRE_THOROUGH`, 98.0). -/
def PRESET_THOROUGH : Preset := ⟨98⟩

/-- `PRESET_VERY_THOROUGH` (`ASTCENC_PRE_VERYTHOROUGH`, 99.0). -/
def PRESET_VERY_THOROUGH : Preset := ⟨99⟩

/-- `PRESET_EXHAUSTIVE` (`ASTCENC_PRE_EXHAUSTIVE`, 100.0). -/
def PRESET_EXHAUSTIVE : Preset := ⟨100⟩

/-- `Preset::default`: the medium preset. -/
def Preset.default : Preset := ⟨60⟩

/-- The crate's `Flags` bitflags over the `ASTCENC_FLG_*` bits of the
bindings, held as the raw `c_uint` bit set. -/
structure Flags where
  bits : Nat
deriving DecidableEq

/-- `Flags::DECOMPRESS_ONLY` (`ASTCENC_FLG_DECOMPRESS_ONLY`). -/
def Flags.DECOMPRESS_ONLY : Flags := ⟨2⟩

/-- `Flags::MAP_NORMAL` (`ASTCENC_FLG_MAP_NORMAL`). -/
def Flags.MAP_NORMAL : Flags := ⟨1⟩

/-- `Flags::USE_ALPHA_WEIGHT` (`ASTCENC_FLG_USE_ALPHA_WEIGHT`). -/
def Flags.USE_ALPHA_WEIGHT : Flags := ⟨4⟩

/-- `Flags::USE_PERCEPTUAL` (`ASTCENC_FLG_USE_PERCEPTUAL`). -/
def Flags.USE_PERCEPTUAL : Flags := ⟨8⟩

/-- `Flags::default`: only the alpha-weighted-error flag. -/
def Flags.default : Flags := Flags.USE_ALPHA_WEIGHT

/-- `Flags::into_sys`: the raw bits. -/
def Flags.into_sys (f : Flags) : Nat := f.bits

/-- The crate's `Type` enum (named `Type'` here because `Type` is a Lean
keyword): the runtime subpixel type tag. -/
inductive Type'
  | F16
  | F32
  | U8
deriving DecidableEq

/-- `Type::into_sys`, to the `astcenc_type` values of the bindings. -/
def Type'.into_sys : Type' → Nat
  | .F16 => 1
  | .F32 => 2
  | .U8 => 0

/-- The crate's `Selector` enum: an individual component of a swizzle. -/
inductive Selector
  | Red
  | Green
  | Blue
  | Alpha
  | Z
  | One
  | Zero
deriving DecidableEq

/-- `Selector::into_sys`, to the `astcenc_swz` values of the bindings. -/
def Selector.into_sys : Selector → Nat
  | .Red => 0
  | .Green => 1
  | .Blue => 2
  | .Alpha => 3
  | .Z => 6
  | .One => 5
  | .Zero => 4

/-- The crate's `Swizzle`: a component selection swizzle. -/
structure Swizzle where
  r : Selector
  g : Selector
  b : Selector
  a : Selector
deriving DecidableEq

/-- `Swizzle::rrr1`. -/
def Swizzle.rrr1 : Swizzle := ⟨.Red, .Red, .Red, .One⟩

/-- `Swizzle::rrrg`. -/
def Swizzle.rrrg : Swizzle := ⟨.Red, .Red, .Red, .Green⟩

/-- `Swizzle::rgb1`. -/
def Swizzle.rgb1 : Swizzle := ⟨.Red, .Green, .Blue, .One⟩

/-- `Swizzle::rgba`. -/
def Swizzle.rgba : Swizzle := ⟨.Red, .Green, .Blue, .Alpha⟩

/-- The crate's `Config`: the validated `astcenc_config` produced by
`astcenc_config_init`.  The wrapper reads only the `block_x`/`block_y`/
`block_z` fields of the native record (in `compress`); the engine fills
them with the requested block dimensions. -/
structure Config where
  block_x : Nat
  block_y : Nat
  block_z : Nat
deriving DecidableEq

/-- The crate's `ConfigBuilder`. -/
structure ConfigBuilder where
  profile : Profile
  preset : Preset
  block_size : Extents
deriving DecidableEq

/-- `ConfigBuilder::default`. -/
def ConfigBuilder.default : ConfigBuilder :=
  { profile := Profile.default
    preset := Preset.default
    block_size := Extents.default_block_size }

/-- `ConfigBuilder::new`. -/
def ConfigBuilder.new : ConfigBuilder := ConfigBuilder.default

/-- `ConfigBuilder::with_profile`. -/
def ConfigBuilder.with_profile (b : ConfigBuilder) (profile : Profile) : ConfigBuilder :=
  { b with profile := profile }

/-- `ConfigBuilder::with_preset`. -/
def ConfigBuilder.with_preset (b : ConfigBuilder) (preset : Preset) : ConfigBuilder :=
  { b with preset := preset }

/-- `ConfigBuilder::with_block_size`. -/
def ConfigBuilder.with_block_size (b : ConfigBuilder) (block_size : Extents) : ConfigBuilder :=
  { b with block_size := block_size }

/-- One call across the FFI boundary into the native engine, recording the
arguments the wrapper passes (pixel payloads cross only as raw pointers and
are not recorded; buffer lengths are). -/
inductive EngineCall
  | configInit (profile : Nat) (block_x block_y block_z : Nat) (quality : Nat) (flags : Nat)
  | contextAlloc (threadCount : Nat)
  | compressImage (dim_x dim_y dim_z : Nat) (dataType : Nat) (swizzle : Swizzle)
      (outLen : Nat)
  | compressReset
  | decompressImage (dataLen : Nat) (dim_x dim_y dim_z : Nat) (dataType : Nat)
      (swizzle : Swizzle)
deriving DecidableEq

/-- `ConfigBuilder::build`: one `astcenc_config_init` engine call with the
builder's profile, block dimensions and preset and the fixed default flag
set; the engine's status (the oracle argument `engStatus`) is translated
through `error_code_to_result`, and only on success is a `Config` produced
(carrying the block dimensions the engine wrote into the native record).
Returns the result together with the trace of engine calls issued. -/
def ConfigBuilder.build (b : ConfigBuilder) (engStatus : Nat) :
    Except Error Config × List EngineCall :=
  (match error_code_to_result engStatus with
    | .error e => .error e
    | .ok _ => .ok { block_x := b.block_size.x
                     block_y := b.block_size.y
                     block_z := b.block_size.z },
   [.configInit b.profile.into_sys b.block_size.x b.block_size.y b.block_size.z
      b.preset.val Flags.default.into_sys])

/-- The crate's `Image<T>`.  The payload `T` is observed by the wrapper only
through `data.as_ref().len()` (and an opaque pointer passed to the engine),
so the embedding records the buffer by its length in components. -/
structure Image where
  extents : Extents
  dataLen : Nat
deriving DecidableEq

/-- The crate's `Context`: the native engine handle plus the `Config` it was
created from.  `nativeReady` embeds the engine handle's internal
compression state: `true` in the clean (Allocated) state, `false` in the
needs-reset state a successful `astcenc_compress_image` leaves behind. -/
structure Context where
  config : Config
  nativeReady : Bool
deriving DecidableEq

/-- `Context::new`: one `astcenc_context_alloc` engine call with a fixed
thread count of 1; the handle starts in the clean state. -/
def Context.new (config : Config) (engStatus : Nat) :
    Except Error Context × List EngineCall :=
  (match error_code_to_result engStatus with
    | .error e => .error e
    | .ok _ => .ok { config := config, nativeReady := true },
   [.contextAlloc 1])

/-- `BYTES_PER_BLOCK` in `Context::compress`. -/
def BYTES_PER_BLOCK : Nat := 16

/-- The `u32` product `extents.x * extents.y * extents.z * 4` that
`compress` compares the buffer length against (and that `decompress` sizes
its output buffer by): left-to-right multiplication, each step wrapping
modulo `2^32`. -/
def requiredComponents (e : Extents) : Nat :=
  wrap32 (wrap32 (wrap32 (e.x * e.y) * e.z) * 4)

/-- The per-axis block count `(dim + block - 1) / block` of `compress`,
in wrapping `u32` arithmetic: the addition `dim + block` wraps, then the
subtraction of 1 wraps (underflowing to `2^32 - 1` when the sum wrapped to
exactly 0). -/
def blockCount (dim blk : Nat) : Nat :=
  (wrap32 (dim + blk) + (U32_MOD - 1)) % U32_MOD / blk

/-- The `usize` output size `blocks_x * blocks_y * blocks_z * 16` computed
by `compress` after casting each `u32` block count to `usize`. -/
def compressBytes (cfg : Config) (e : Extents) : Nat :=
  (blockCount e.x cfg.block_x * blockCount e.y cfg.block_y * blockCount e.z cfg.block_z
    * BYTES_PER_BLOCK) % USIZE_MOD

/-- The status `astcenc_compress_image` returns, as a function of the
handle's internal state: in the clean state the engine's verdict on the
actual encode is the oracle `encodeStatus`; on a handle still in the
needs-reset state the engine rejects the call (`BAD_CONTEXT`).  The engine
side of this model follows the lifecycle the spec records: a successful
compress leaves the internal block-classification state dirty until
`astcenc_compress_reset` clears it. -/
def engineCompressStatus (ready : Bool) (encodeStatus : Nat) : Nat :=
  if ready then encodeStatus else ASTCENC_ERR_BAD_CONTEXT

/-- `Context::reset`: one `astcenc_compress_reset` engine call, translated
through `error_code_to_result`; on success the handle is clean again. -/
def Context.reset (ctx : Context) (resetStatus : Nat) :
    Except Error Unit × Context × List EngineCall :=
  (error_code_to_result resetStatus,
   { ctx with nativeReady := if resetStatus = ASTCENC_SUCCESS then true else ctx.nativeReady },
   [.compressReset])

/-- `Context::compress`.  Validates `image.data.len()` against the wrapping
`u32` product `x*y*z*4` (else `BadParam`, with no engine call); computes
the block grid in wrapping `u32` arithmetic and the output size in `usize`
arithmetic; issues `astcenc_compress_image`; on engine failure returns the
translated error; on success sets the output vector's length to `bytes`,
issues the internal `reset` (propagating its error), and returns the output
(recorded by its length).  `encodeStatus` and `resetStatus` are the engine
oracle for the two calls; the result comes with the updated context and the
trace of engine calls. -/
def Context.compress (ctx : Context) (image : Image) (swizzle : Swizzle) (ty : Type')
    (encodeStatus resetStatus : Nat) :
    Except Error Nat × Context × List EngineCall :=
  if image.dataLen ≠ requiredComponents image.extents then
    (.error .BadParam, ctx, [])
  else
    let bytes := compressBytes ctx.config image.extents
    let call := EngineCall.compressImage image.extents.x image.extents.y image.extents.z
      ty.into_sys swizzle bytes
    match error_code_to_result (engineCompressStatus ctx.nativeReady encodeStatus) with
    | .error e => (.error e, ctx, [call])
    | .ok _ =>
      let dirty : Context := { ctx with nativeReady := false }
      match Context.reset dirty resetStatus with
      | (.error e, ctx2, resetCalls) => (.error e, ctx2, call :: resetCalls)
      | (.ok _, ctx2, resetCalls) => (.ok bytes, ctx2, call :: resetCalls)

/-- `Context::decompress_into`: issues `astcenc_decompress_image` with the
compressed buffer and its length, the output image's extents and component
type, and the swizzle, and returns the translated engine status.  No
validation of the output buffer is performed, the context is untouched and
no reset is issued. -/
def Context.decompress_into (ctx : Context) (dataLen : Nat) (out : Image)
    (swizzle : Swizzle) (ty : Type') (engStatus : Nat) :
    Except Error Unit × Context × List EngineCall :=
  (error_code_to_result engStatus, ctx,
   [.decompressImage dataLen out.extents.x out.extents.y out.extents.z
      ty.into_sys swizzle])

/-- `Context::decompress`: allocates an output buffer of `usize` capacity
`(extents.x * extents.y * extents.z * 4)` (the wrapping `u32` product),
issues `astcenc_decompress_image`, and on success sets the buffer's length
to that capacity and returns the image. -/
def Context.decompress (ctx : Context) (dataLen : Nat) (extents : Extents)
    (swizzle : Swizzle) (ty : Type') (engStatus : Nat) :
    Except Error Image × Context × List EngineCall :=
  let size := requiredComponents extents
  let call := EngineCall.decompressImage dataLen extents.x extents.y extents.z
    ty.into_sys swizzle
  match error_code_to_result engStatus with
  | .error e => (.error e, ctx, [call])
  | .ok _ => (.ok { extents := extents, dataLen := size }, ctx, [call])

/-- Rust `size_of` for the supported component types: u8 is 1 byte, f16 is
2 bytes, f32 is 4 bytes. -/
def componentSize : Type' → Nat
  | .F16 => 2
  | .F32 => 4
  | .U8 => 1

/-- A Rust slice reference `&[D]`: a fat pointer holding the data address
(byte offset into memory) and the length field, which counts elements of
the slice's element type. -/
structure SliceRef where
  off : Nat
  len : Nat
deriving DecidableEq

/-- The bytes of memory `mem` covered by a slice whose elements are `sz`
bytes wide: `len * sz` bytes starting at the data pointer. -/
def SliceRef.bytes (mem : List Nat) (s : SliceRef) (sz : Nat) : List Nat :=
  (mem.drop s.off).take (s.len * sz)

/-- `<u8 as DataType>::as_u8s`: the slice is returned as-is (`array`). -/
def u8_as_u8s (array : SliceRef) : SliceRef := array

/-- `<f32 as DataType>::as_u8s`: `std::mem::transmute` of the `&[f32]` fat
pointer to a `&[u8]` fat pointer, which preserves the data pointer and the
length field bit-for-bit — in particular the length field still holds the
f32 element count. -/
def f32_as_u8s (array : SliceRef) : SliceRef := array

/-- `<half::f16 as DataType>::as_u8s`: `std::mem::transmute` of the fat
pointer, as for f32. -/
def f16_as_u8s (array : SliceRef) : SliceRef := array

/-- The `as_u8s_mut` counterparts are the same transmutes of `&mut [D]`. -/
def f32_as_u8s_mut (array : SliceRef) : SliceRef := array

/-- Mutable transmute for f16, as for f32. -/
def f16_as_u8s_mut (array : SliceRef) : SliceRef := array

/-- Identity byte view of a mutable u8 slice. -/
def u8_as_u8s_mut (array : SliceRef) : SliceRef := array

/-- The status-code translation returns `Ok` only on `ASTCENC_SUCCESS`. -/
theorem error_code_ok_imp (code : Nat) (u : Unit)
    (h : error_code_to_result code = .ok u) : code = ASTCENC_SUCCESS := by
  by_contra hne
  unfold error_code_to_result at h
  rw [if_neg hne] at h
  by_cases c4 : code = ASTCENC_ERR_BAD_BLOCK_SIZE
  · rw [if_pos c4] at h; exact Except.noConfusion h
  rw [if_neg c4] at h
  by_cases c9 : code = ASTCENC_ERR_BAD_CONTEXT
  · rw [if_pos c9] at h; exact Except.noConfusion h
  rw [if_neg c9] at h
  by_cases c2 : code = ASTCENC_ERR_BAD_CPU_FLOAT
  · rw [if_pos c2] at h; exact Except.noConfusion h
  rw [if_neg c2] at h
  by_cases c11 : code = ASTCENC_ERR_BAD_DECODE_MODE
  · rw [if_pos c11] at h; exact Except.noConfusion h
  rw [if_neg c11] at h
  by_cases c8 : code = ASTCENC_ERR_BAD_FLAGS
  · rw [if_pos c8] at h; exact Except.noConfusion h
  rw [if_neg c8] at h
  by_cases c3 : code = ASTCENC_ERR_BAD_PARAM
  · rw [if_pos c3] at h; exact Except.noConfusion h
  rw [if_neg c3] at h
  by_cases c6 : code = ASTCENC_ERR_BAD_QUALITY
  · rw [if_pos c6] at h; exact Except.noConfusion h
  rw [if_neg c6] at h
  by_cases c5 : code = ASTCENC_ERR_BAD_PROFILE
  · rw [if_pos c5] at h; exact Except.noConfusion h
  rw [if_neg c5] at h
  by_cases c7 : code = ASTCENC_ERR_BAD_SWIZZLE
  · rw [if_pos c7] at h; exact Except.noConfusion h
  rw [if_neg c7] at h
  by_cases c10 : code = ASTCENC_ERR_NOT_IMPLEMENTED
  · rw [if_pos c10] at h; exact Except.noConfusion h
  rw [if_neg c10] at h
  by_cases c1 : code = ASTCENC_ERR_OUT_OF_MEM
  · rw [if_pos c1] at h; exact Except.noConfusion h
  rw [if_neg c1] at h
  exact Except.noConfusion h

/-- Status codes outside the recognized set all translate to `Unknown`. -/
theorem error_code_unknown (code : Nat)
    (h0 : code ≠ ASTCENC_SUCCESS) (h4 : code ≠ ASTCENC_ERR_BAD_BLOCK_SIZE)
    (h9 : code ≠ ASTCENC_ERR_BAD_CONTEXT) (h2 : code ≠ ASTCENC_ERR_BAD_CPU_FLOAT)
    (h11 : code ≠ ASTCENC_ERR_BAD_DECODE_MODE) (h8 : code ≠ ASTCENC_ERR_BAD_FLAGS)
    (h3 : code ≠ ASTCENC_ERR_BAD_PARAM) (h6 : code ≠ ASTCENC_ERR_BAD_QUALITY)
    (h5 : code ≠ ASTCENC_ERR_BAD_PROFILE) (h7 : code ≠ ASTCENC_ERR_BAD_SWIZZLE)
    (h10 : code ≠ ASTCENC_ERR_NOT_IMPLEMENTED) (h1 : code ≠ ASTCENC_ERR_OUT_OF_MEM) :
    error_code_to_result code = .error .Unknown := by
  unfold error_code_to_result
  rw [if_neg h0, if_neg h4, if_neg h9, if_neg h2, if_neg h11, if_neg h8, if_neg h3,
    if_neg h6, if_neg h5, if_neg h7, if_neg h10, if_neg h1]

/-- The nested wrapping multiplications of `requiredComponents` collapse to a
single reduction of the full product modulo `2^32`. -/
theorem requiredComponents_eq (e : Extents) :
    requiredComponents e = e.x * e.y * e.z * 4 % U32_MOD := by
  have h1 : e.x * e.y % U32_MOD * e.z % U32_MOD = e.x * e.y * e.z % U32_MOD :=
    Nat.mod_mul_mod
  unfold requiredComponents wrap32
  rw [h1, Nat.mod_mul_mod]

/-- The wrapping block count is the true count `(dim + blk - 1)` reduced
modulo `2^32`, then divided. -/
theorem blockCount_eq (dim blk : Nat) (h : 1 ≤ dim + blk) :
    blockCount dim blk = (dim + blk - 1) % U32_MOD / blk := by
  have hM : 0 < U32_MOD := by unfold U32_MOD; omega
  have key : (wrap32 (dim + blk) + (U32_MOD - 1)) % U32_MOD = (dim + blk - 1) % U32_MOD := by
    unfold wrap32
    rw [Nat.mod_add_mod]
    have heq : dim + blk + (U32_MOD - 1) = (dim + blk - 1) + U32_MOD := by omega
    rw [heq, Nat.add_mod_right]
  unfold blockCount
  rw [key]

/-- When `dim + blk - 1` stays below `2^32` the wrapping block count is the
exact ceiling division `(dim + blk - 1) / blk`. -/
theorem blockCount_eq_ceil (dim blk : Nat) (hb : 1 ≤ blk) (hfit : dim + blk ≤ U32_MOD) :
    blockCount dim blk = (dim + blk - 1) / blk := by
  have hM : 0 < U32_MOD := by unfold U32_MOD; omega
  rw [blockCount_eq dim blk (by omega), Nat.mod_eq_of_lt (by omega)]

/-- A buffer-length mismatch short-circuits `compress` before any engine
call: `BadParam`, untouched context, empty call trace. -/
theorem compress_of_mismatch (ctx : Context) (img : Image) (sw : Swizzle) (ty : Type')
    (es rs : Nat) (h : img.dataLen ≠ requiredComponents img.extents) :
    Context.compress ctx img sw ty es rs = (.error .BadParam, ctx, []) := by
  unfold Context.compress
  rw [if_pos h]

/-- Evaluation of `compress` when the encode call fails: the translated
error, untouched context, and only the encode call in the trace. -/
theorem compress_of_encode_error (ctx : Context) (img : Image) (sw : Swizzle) (ty : Type')
    (es rs : Nat) (e : Error)
    (hv : img.dataLen = requiredComponents img.extents)
    (hs : error_code_to_result (engineCompressStatus ctx.nativeReady es) = .error e) :
    Context.compress ctx img sw ty es rs =
      (.error e, ctx,
       [.compressImage img.extents.x img.extents.y img.extents.z ty.into_sys sw
          (compressBytes ctx.config img.extents)]) := by
  simp [Context.compress, hv, hs]

/-- Evaluation of `compress` when the encode call succeeds but the internal
reset fails: the reset error is propagated and the handle stays dirty. -/
theorem compress_of_reset_error (ctx : Context) (img : Image) (sw : Swizzle) (ty : Type')
    (es rs : Nat) (u : Unit) (e : Error)
    (hv : img.dataLen = requiredComponents img.extents)
    (hs : error_code_to_result (engineCompressStatus ctx.nativeReady es) = .ok u)
    (hr : error_code_to_result rs = .error e) :
    Context.compress ctx img sw ty es rs =
      (.error e, { ctx with nativeReady := false },
       [.compressImage img.extents.x img.extents.y img.extents.z ty.into_sys sw
          (compressBytes ctx.config img.extents), .compressReset]) := by
  have hrs : rs ≠ ASTCENC_SUCCESS := by
    intro hrs0
    rw [hrs0] at hr
    exact Except.noConfusion hr
  simp [Context.compress, Context.reset, hv, hs, hr, hrs]

/-- Evaluation of `compress` when the encode call and the internal reset
both succeed: the output length, a clean handle, and the encode call
followed by the reset call in the trace. -/
theorem compress_of_success (ctx : Context) (img : Image) (sw : Swizzle) (ty : Type')
    (es rs : Nat) (u u' : Unit)
    (hv : img.dataLen = requiredComponents img.extents)
    (hs : error_code_to_result (engineCompressStatus ctx.nativeReady es) = .ok u)
    (hr : error_code_to_result rs = .ok u') :
    Context.compress ctx img sw ty es rs =
      (.ok (compressBytes ctx.config img.extents), { ctx with nativeReady := true },
       [.compressImage img.extents.x img.extents.y img.extents.z ty.into_sys sw
          (compressBytes ctx.config img.extents), .compressReset]) := by
  have hrs : rs = ASTCENC_SUCCESS := error_code_ok_imp rs u' hr
  subst hrs
  have h0 : error_code_to_result ASTCENC_SUCCESS = .ok () := rfl
  simp [Context.compress, Context.reset, hv, hs, h0]

/-- A successful `compress` validated the buffer length, returned the block
grid output size, left the handle clean, and its trace is the encode call
followed by the reset call. -/
theorem compress_ok_elim (ctx : Context) (img : Image) (sw : Swizzle) (ty : Type')
    (es rs : Nat) (n : Nat)
    (h : (Context.compress ctx img sw ty es rs).1 = .ok n) :
    img.dataLen = requiredComponents img.extents ∧
    n = compressBytes ctx.config img.extents ∧
    (Context.compress ctx img sw ty es rs).2.1 = { ctx with nativeReady := true } ∧
    (Context.compress ctx img sw ty es rs).2.2 =
      [.compressImage img.extents.x img.extents.y img.extents.z ty.into_sys sw
         (compressBytes ctx.config img.extents), .compressReset] := by
  by_cases hv : img.dataLen = requiredComponents img.extents
  · rcases hs : error_code_to_result (engineCompressStatus ctx.nativeReady es) with e | u
    · rw [compress_of_encode_error ctx img sw ty es rs e hv hs] at h
      exact absurd h (by simp)
    · rcases hr : error_code_to_result rs with e | u'
      · rw [compress_of_reset_error ctx img sw ty es rs u e hv hs hr] at h
        exact absurd h (by simp)
      · rw [compress_of_success ctx img sw ty es rs u u' hv hs hr] at h ⊢
        simp at h
        exact ⟨hv, h.symm, rfl, rfl⟩
  · rw [compress_of_mismatch ctx img sw ty es rs hv] at h
    exact absurd h (by simp)

/-- C4: the status-code translation is a total function: the engine success
code maps to `Ok`, each of the eleven known engine error codes maps to
exactly one typed error, and every status value outside the recognized set
maps to `Unknown`; being a total Lean function of the code, it cannot
panic on any input. -/
theorem error_code_to_result_total :
    error_code_to_result ASTCENC_SUCCESS = .ok () ∧
    error_code_to_result ASTCENC_ERR_BAD_BLOCK_SIZE = .error .BadBlockSize ∧
    error_code_to_result ASTCENC_ERR_BAD_CONTEXT = .error .BadContext ∧
    error_code_to_result ASTCENC_ERR_BAD_CPU_FLOAT = .error .BadCpuFloat ∧
    error_code_to_result ASTCENC_ERR_BAD_DECODE_MODE = .error .BadDecodeMode ∧
    error_code_to_result ASTCENC_ERR_BAD_FLAGS = .error .BadFlags ∧
    error_code_to_result ASTCENC_ERR_BAD_PARAM = .error .BadParam ∧
    error_code_to_result ASTCENC_ERR_BAD_QUALITY = .error .BadQuality ∧
    error_code_to_result ASTCENC_ERR_BAD_PROFILE = .error .BadProfile ∧
    error_code_to_result ASTCENC_ERR_BAD_SWIZZLE = .error .BadSwizzle ∧
    error_code_to_result ASTCENC_ERR_NOT_IMPLEMENTED = .error .NotImplemented ∧
    error_code_to_result ASTCENC_ERR_OUT_OF_MEM = .error .OutOfMem ∧
    ∀ code : Nat, code ∉ knownStatusCodes →
      error_code_to_result code = .error .Unknown := by
  refine ⟨rfl, rfl, rfl, rfl, rfl, rfl, rfl, rfl, rfl, rfl, rfl, rfl, ?_⟩
  intro code hc
  simp only [knownStatusCodes, List.mem_cons, List.not_mem_nil, or_false, not_or] at hc
  obtain ⟨n0, n4, n9, n2, n11, n8, n3, n6, n5, n7, n10, n1⟩ := hc
  exact error_code_unknown code n0 n4 n9 n2 n11 n8 n3 n6 n5 n7 n10 n1

/-- C4 witness: the translation applied at the unrecognized status code
9999 yields `Unknown`. -/
theorem error_code_to_result_total_witness :
    error_code_to_result 9999 = .error .Unknown :=
  error_code_to_result_total.2.2.2.2.2.2.2.2.2.2.2.2 9999 (by decide)

/-- C2 (amended): `compress` on an image whose buffer length differs from
the wrapping-u32 product `x*y*z*4 mod 2^32` fails with `BadParam`, issues
no engine call, and leaves the context unchanged.  (The comparison is made
in wrapping `u32` arithmetic, so a buffer whose length differs from the
true product but matches the wrapped one passes validation.) -/
theorem compress_badParam_of_wrapped_mismatch (ctx : Context) (img : Image) (sw : Swizzle)
    (ty : Type') (es rs : Nat)
    (h : img.dataLen ≠ img.extents.x * img.extents.y * img.extents.z * 4 % U32_MOD) :
    Context.compress ctx img sw ty es rs = (.error .BadParam, ctx, []) := by
  apply compress_of_mismatch
  rw [requiredComponents_eq]
  exact h

/-- C2 witness: a 6x6x1 image with a 5-component buffer (instead of 144) is
rejected as `BadParam` with no engine call. -/
theorem compress_badParam_of_wrapped_mismatch_witness :
    Context.compress ⟨⟨4, 4, 1⟩, true⟩ ⟨⟨6, 6, 1⟩, 5⟩ Swizzle.rgba .U8
      ASTCENC_SUCCESS ASTCENC_SUCCESS = (.error .BadParam, ⟨⟨4, 4, 1⟩, true⟩, []) :=
  compress_badParam_of_wrapped_mismatch ⟨⟨4, 4, 1⟩, true⟩ ⟨⟨6, 6, 1⟩, 5⟩ Swizzle.rgba .U8
    ASTCENC_SUCCESS ASTCENC_SUCCESS (by decide)

/-- C2 counterexample: an image declaring extents (2^30, 1, 1) with an empty
buffer has buffer length 0 ≠ x*y*z*4 = 2^32, yet `compress` does not return
`BadParam`: the u32 product wraps to 0, validation passes, and the engine
is invoked (the call trace is nonempty — compress succeeds if the engine
reports success). -/
theorem compress_len_mismatch_engine_invoked :
    (0 : Nat) ≠ 1073741824 * 1 * 1 * 4 ∧
    (Context.compress ⟨⟨4, 4, 1⟩, true⟩ ⟨⟨1073741824, 1, 1⟩, 0⟩ Swizzle.rgba .U8
        ASTCENC_SUCCESS ASTCENC_SUCCESS).1 ≠ .error .BadParam ∧
    (Context.compress ⟨⟨4, 4, 1⟩, true⟩ ⟨⟨1073741824, 1, 1⟩, 0⟩ Swizzle.rgba .U8
        ASTCENC_SUCCESS ASTCENC_SUCCESS).2.2 ≠ [] := by
  have heq : Context.compress ⟨⟨4, 4, 1⟩, true⟩ ⟨⟨1073741824, 1, 1⟩, 0⟩ Swizzle.rgba .U8
      ASTCENC_SUCCESS ASTCENC_SUCCESS =
      (.ok 4294967296, ⟨⟨4, 4, 1⟩, true⟩,
       [.compressImage 1073741824 1 1 0 Swizzle.rgba 4294967296, .compressReset]) := by
    rfl
  refine ⟨by norm_num, ?_, ?_⟩ <;> rw [heq] <;> simp

/-- C10: `decompress_into` synthesizes no error of its own: for every output
image — a buffer length mismatching the extents included — the engine is
invoked with the supplied compressed buffer and output geometry, the
result is exactly the taxonomy mapping of the engine's status code, the
context is untouched, and no reset is issued. -/
theorem decompress_into_no_own_errors (ctx : Context) (dataLen : Nat) (out : Image)
    (sw : Swizzle) (ty : Type') (ds : Nat) :
    (Context.decompress_into ctx dataLen out sw ty ds).2.2 =
      [.decompressImage dataLen out.extents.x out.extents.y out.extents.z ty.into_sys sw] ∧
    (Context.decompress_into ctx dataLen out sw ty ds).1 = error_code_to_result ds ∧
    (Context.decompress_into ctx dataLen out sw ty ds).2.1 = ctx :=
  ⟨rfl, rfl, rfl⟩

/-- C7: the builder's default state is profile LDR-RGBA, preset Medium and
block size 4x4x1; `build` issues exactly one engine validation call,
carrying the builder's profile, block dimensions and preset together with
the fixed default flag set consisting of only the alpha-weighted-error
flag; and any validation failure is returned as the mapped error, with no
`Config` produced. -/
theorem configBuilder_default_build :
    ConfigBuilder.default =
      { profile := .LdrRgba, preset := PRESET_MEDIUM, block_size := ⟨4, 4, 1⟩ } ∧
    Flags.default = Flags.USE_ALPHA_WEIGHT ∧
    (∀ (b : ConfigBuilder) (s : Nat),
      (ConfigBuilder.build b s).2 =
        [.configInit b.profile.into_sys b.block_size.x b.block_size.y b.block_size.z
           b.preset.val Flags.USE_ALPHA_WEIGHT.into_sys]) ∧
    (∀ (b : ConfigBuilder) (s : Nat) (e : Error),
      error_code_to_result s = .error e → (ConfigBuilder.build b s).1 = .error e) := by
  refine ⟨rfl, rfl, fun b s => rfl, fun b s e h => ?_⟩
  simp [ConfigBuilder.build, h]

/-- C7 witness: building the default configuration against an engine that
rejects the block size yields exactly `BadBlockSize` and no config. -/
theorem configBuilder_default_build_witness :
    (ConfigBuilder.build ConfigBuilder.default ASTCENC_ERR_BAD_BLOCK_SIZE).1 =
      .error .BadBlockSize :=
  configBuilder_default_build.2.2.2 ConfigBuilder.default ASTCENC_ERR_BAD_BLOCK_SIZE
    .BadBlockSize rfl

/-- C5 (code evaluated at the failing input): on the one-element f32 slice
backed by the 4 memory bytes [0, 0, 128, 63] (the representation of
1.0f32), `as_u8s` — a `transmute` of the fat pointer, which keeps the
length field — produces a byte slice of length 1, not
`len * size_of::<f32>() = 4`, and its bytes are not the element's full
memory representation; the mutable impl and the f16 impl transmute the
same way, while the u8 impl (the identity) is correct. -/
theorem as_u8s_transmute_wrong_length :
    f32_as_u8s ⟨0, 1⟩ = ⟨0, 1⟩ ∧
    (SliceRef.bytes [0, 0, 128, 63] (f32_as_u8s ⟨0, 1⟩) 1).length = 1 ∧
    1 ≠ 1 * componentSize .F32 ∧
    SliceRef.bytes [0, 0, 128, 63] (f32_as_u8s ⟨0, 1⟩) 1 ≠
      SliceRef.bytes [0, 0, 128, 63] ⟨0, 1⟩ (componentSize .F32) ∧
    (SliceRef.bytes [0, 0, 128, 63] ⟨0, 1⟩ (componentSize .F32)).length =
      1 * componentSize .F32 ∧
    f32_as_u8s_mut ⟨0, 1⟩ = ⟨0, 1⟩ ∧
    (SliceRef.bytes [0, 60] (f16_as_u8s ⟨0, 1⟩) 1).length = 1 ∧
    1 ≠ 1 * componentSize .F16 ∧
    (∀ (mem : List Nat) (s : SliceRef),
      SliceRef.bytes mem (u8_as_u8s s) 1 = SliceRef.bytes mem s (componentSize .U8)) := by
  refine ⟨rfl, by decide, by decide, by decide, by decide, rfl, by decide, by decide, ?_⟩
  intro mem s
  rfl

/-- C1 counterexample: with block size 4x4x1 and declared extents
(2^32 - 1, 1, 1) (buffer length 2^32 - 4, which matches the wrapped
product), `compress` succeeds and returns a 0-byte vector — the block-count
addition `x + bx` wraps in u32 — while
`ceil(x/bx) * ceil(y/by) * ceil(z/bz) * 16 = 2^34`. -/
theorem compress_output_length_wraps :
    (Context.compress ⟨⟨4, 4, 1⟩, true⟩ ⟨⟨4294967295, 1, 1⟩, 4294967292⟩ Swizzle.rgba .U8
        ASTCENC_SUCCESS ASTCENC_SUCCESS).1 = .ok 0 ∧
    (0 : Nat) ≠ (4294967295 + 4 - 1) / 4 * ((1 + 4 - 1) / 4) * ((1 + 1 - 1) / 1) * 16 :=
  ⟨rfl, by norm_num⟩

/-- C1 (amended): when the block-grid arithmetic does not overflow — each
block axis is at least 1, each `extents.axis + block.axis` stays within
u32 range, and the byte product stays below 2^64 — a successful `compress`
returns a byte vector of length exactly
`ceil(x/bx) * ceil(y/by) * ceil(z/bz) * 16`, the ceiling divisions written
as `(a + b - 1) / b`. -/
theorem compress_output_length (ctx : Context) (img : Image) (sw : Swizzle) (ty : Type')
    (es rs : Nat) (n : Nat)
    (hbx : 1 ≤ ctx.config.block_x) (hby : 1 ≤ ctx.config.block_y)
    (hbz : 1 ≤ ctx.config.block_z)
    (hx : img.extents.x + ctx.config.block_x ≤ U32_MOD)
    (hy : img.extents.y + ctx.config.block_y ≤ U32_MOD)
    (hz : img.extents.z + ctx.config.block_z ≤ U32_MOD)
    (hfit : (img.extents.x + ctx.config.block_x - 1) / ctx.config.block_x *
        ((img.extents.y + ctx.config.block_y - 1) / ctx.config.block_y) *
        ((img.extents.z + ctx.config.block_z - 1) / ctx.config.block_z) *
        BYTES_PER_BLOCK < USIZE_MOD)
    (h : (Context.compress ctx img sw ty es rs).1 = .ok n) :
    n = (img.extents.x + ctx.config.block_x - 1) / ctx.config.block_x *
        ((img.extents.y + ctx.config.block_y - 1) / ctx.config.block_y) *
        ((img.extents.z + ctx.config.block_z - 1) / ctx.config.block_z) *
        BYTES_PER_BLOCK := by
  obtain ⟨hv, hn, h21, h22⟩ := compress_ok_elim ctx img sw ty es rs n h
  rw [hn]
  unfold compressBytes
  rw [blockCount_eq_ceil _ _ hbx hx, blockCount_eq_ceil _ _ hby hy,
    blockCount_eq_ceil _ _ hbz hz, Nat.mod_eq_of_lt hfit]

/-- C1 witness: the spec's own example — extents (6,6,1), block (4,4,1) —
compresses successfully to 2*2*1*16 = 64 bytes. -/
theorem compress_output_length_witness :
    (Context.compress ⟨⟨4, 4, 1⟩, true⟩ ⟨⟨6, 6, 1⟩, 144⟩ Swizzle.rgba .U8
        ASTCENC_SUCCESS ASTCENC_SUCCESS).1 = .ok 64 ∧
    (64 : Nat) = (6 + 4 - 1) / 4 * ((6 + 4 - 1) / 4) * ((1 + 1 - 1) / 1) * BYTES_PER_BLOCK :=
  ⟨rfl,
   compress_output_length ⟨⟨4, 4, 1⟩, true⟩ ⟨⟨6, 6, 1⟩, 144⟩ Swizzle.rgba .U8
     ASTCENC_SUCCESS ASTCENC_SUCCESS 64 (by decide) (by decide) (by decide) (by decide)
     (by decide) (by decide) (by decide) rfl⟩

/-- C9: all buffer-size and block-grid arithmetic of `compress` is wrapping
32-bit arithmetic: the length validation compares the buffer length against
`x*y*z*4` reduced mod 2^32 (an engine call is issued exactly when the
wrapped comparison passes), the per-axis block count is
`(axis + block - 1) / block` with the numerator reduced mod 2^32, and
concretely the product for extents (2^30,1,1) wraps to 0 while the block
count for axis 2^32-1 with block 4 wraps to 0: no widened or checked
arithmetic guards these computations. -/
theorem compress_arithmetic_wrapping :
    (∀ e : Extents, requiredComponents e = e.x * e.y * e.z * 4 % U32_MOD) ∧
    (∀ (ctx : Context) (img : Image) (sw : Swizzle) (ty : Type') (es rs : Nat),
      (Context.compress ctx img sw ty es rs).2.2 = [] ↔
        img.dataLen ≠ img.extents.x * img.extents.y * img.extents.z * 4 % U32_MOD) ∧
    (∀ dim blk : Nat, 1 ≤ dim + blk →
      blockCount dim blk = (dim + blk - 1) % U32_MOD / blk) ∧
    requiredComponents ⟨1073741824, 1, 1⟩ = 0 ∧
    blockCount 4294967295 4 = 0 := by
  refine ⟨requiredComponents_eq, ?_, blockCount_eq, by decide, by decide⟩
  intro ctx img sw ty es rs
  rw [← requiredComponents_eq img.extents]
  by_cases hv : img.dataLen = requiredComponents img.extents
  · constructor
    · intro htr
      exfalso
      rcases hs : error_code_to_result (engineCompressStatus ctx.nativeReady es) with e | u
      · rw [compress_of_encode_error ctx img sw ty es rs e hv hs] at htr
        exact List.noConfusion htr
      · rcases hr : error_code_to_result rs with e | u'
        · rw [compress_of_reset_error ctx img sw ty es rs u e hv hs hr] at htr
          exact List.noConfusion htr
        · rw [compress_of_success ctx img sw ty es rs u u' hv hs hr] at htr
          exact List.noConfusion htr
    · intro hne
      exact absurd hv hne
  · constructor
    · intro _
      exact hv
    · intro _
      rw [compress_of_mismatch ctx img sw ty es rs hv]

/-- C9 witness: the wrapping block-count identity applied at axis 2^32-1
with block 4. -/
theorem compress_arithmetic_wrapping_witness :
    blockCount 4294967295 4 = (4294967295 + 4 - 1) % U32_MOD / 4 :=
  compress_arithmetic_wrapping.2.2.1 4294967295 4 (by decide)

/-- C3: every successful `compress` issues the internal reset as its final
engine call before returning and leaves the context in the clean
(Allocated) state; a clean context sustains two sequential compress calls
of matching images (the engine granting both encodes), each returning the
correct-length output, with the configuration unchanged in between; and
`decompress_into` never issues a reset. -/
theorem compress_reset_discipline :
    (∀ (ctx : Context) (img : Image) (sw : Swizzle) (ty : Type') (es rs n : Nat),
      (Context.compress ctx img sw ty es rs).1 = .ok n →
      (Context.compress ctx img sw ty es rs).2.2 =
        [.compressImage img.extents.x img.extents.y img.extents.z ty.into_sys sw
           (compressBytes ctx.config img.extents), .compressReset] ∧
      ((Context.compress ctx img sw ty es rs).2.1).nativeReady = true) ∧
    (∀ (ctx : Context) (img1 img2 : Image) (sw : Swizzle) (ty : Type'),
      ctx.nativeReady = true →
      img1.dataLen = requiredComponents img1.extents →
      img2.dataLen = requiredComponents img2.extents →
      (Context.compress ctx img1 sw ty ASTCENC_SUCCESS ASTCENC_SUCCESS).1 =
        .ok (compressBytes ctx.config img1.extents) ∧
      ((Context.compress ctx img1 sw ty ASTCENC_SUCCESS ASTCENC_SUCCESS).2.1).config =
        ctx.config ∧
      (Context.compress
          ((Context.compress ctx img1 sw ty ASTCENC_SUCCESS ASTCENC_SUCCESS).2.1)
          img2 sw ty ASTCENC_SUCCESS ASTCENC_SUCCESS).1 =
        .ok (compressBytes ctx.config img2.extents)) ∧
    (∀ (ctx : Context) (dataLen : Nat) (out : Image) (sw : Swizzle) (ty : Type') (ds : Nat),
      EngineCall.compressReset ∉ (Context.decompress_into ctx dataLen out sw ty ds).2.2) := by
  refine ⟨?_, ?_, ?_⟩
  · intro ctx img sw ty es rs n h
    obtain ⟨hv, hn, h21, h22⟩ := compress_ok_elim ctx img sw ty es rs n h
    refine ⟨h22, ?_⟩
    rw [h21]
  · intro ctx img1 img2 sw ty hready h1 h2
    have hr0 : error_code_to_result ASTCENC_SUCCESS = .ok () := rfl
    have hs1 : error_code_to_result (engineCompressStatus ctx.nativeReady ASTCENC_SUCCESS) =
        .ok () := by
      rw [hready]
      rfl
    have hc1 := compress_of_success ctx img1 sw ty ASTCENC_SUCCESS ASTCENC_SUCCESS () ()
      h1 hs1 hr0
    have hs2 : error_code_to_result
        (engineCompressStatus ({ ctx with nativeReady := true } : Context).nativeReady
          ASTCENC_SUCCESS) = .ok () := rfl
    have hc2 := compress_of_success { ctx with nativeReady := true } img2 sw ty
      ASTCENC_SUCCESS ASTCENC_SUCCESS () () h2 hs2 hr0
    refine ⟨by rw [hc1], by rw [hc1], ?_⟩
    simp [hc1, hc2]
  · intro ctx dataLen out sw ty ds
    simp [Context.decompress_into]

/-- C3 witness: a clean 4x4x1 context compresses a 6x6x1 image (trace ends
with the reset, handle clean again), then an 8x8x1 image on the same
context, and a decompress_into trace contains no reset. -/
theorem compress_reset_discipline_witness :
    (Context.compress ⟨⟨4, 4, 1⟩, true⟩ ⟨⟨6, 6, 1⟩, 144⟩ Swizzle.rgba .U8
        ASTCENC_SUCCESS ASTCENC_SUCCESS).2.2 =
      [.compressImage 6 6 1 0 Swizzle.rgba 64, .compressReset] ∧
    ((Context.compress ⟨⟨4, 4, 1⟩, true⟩ ⟨⟨6, 6, 1⟩, 144⟩ Swizzle.rgba .U8
        ASTCENC_SUCCESS ASTCENC_SUCCESS).2.1).nativeReady = true ∧
    (Context.compress
        ((Context.compress ⟨⟨4, 4, 1⟩, true⟩ ⟨⟨6, 6, 1⟩, 144⟩ Swizzle.rgba .U8
          ASTCENC_SUCCESS ASTCENC_SUCCESS).2.1)
        ⟨⟨8, 8, 1⟩, 256⟩ Swizzle.rgba .U8 ASTCENC_SUCCESS ASTCENC_SUCCESS).1 = .ok 64 ∧
    EngineCall.compressReset ∉
      (Context.decompress_into ⟨⟨4, 4, 1⟩, true⟩ 64 ⟨⟨6, 6, 1⟩, 144⟩ Swizzle.rgba .U8
        ASTCENC_SUCCESS).2.2 := by
  obtain ⟨p1, p2, p3⟩ := compress_reset_discipline
  have h1 := p1 ⟨⟨4, 4, 1⟩, true⟩ ⟨⟨6, 6, 1⟩, 144⟩ Swizzle.rgba .U8
    ASTCENC_SUCCESS ASTCENC_SUCCESS 64 rfl
  have h2 := p2 ⟨⟨4, 4, 1⟩, true⟩ ⟨⟨6, 6, 1⟩, 144⟩ ⟨⟨8, 8, 1⟩, 256⟩ Swizzle.rgba .U8
    rfl (by decide) (by decide)
  exact ⟨h1.1, h1.2, h2.2.2, p3 ⟨⟨4, 4, 1⟩, true⟩ 64 ⟨⟨6, 6, 1⟩, 144⟩ Swizzle.rgba .U8
    ASTCENC_SUCCESS⟩

/-- C6: for an image whose buffer length equals `x*y*z*4`, a successful
compress followed by a successful decompress at the same extents and
swizzle yields an output image with the input's extents and the input's
buffer length (shape preservation only; pixel contents cross the FFI
boundary opaquely). -/
theorem compress_decompress_shape (ctx : Context) (img : Image) (sw : Swizzle) (ty : Type')
    (es rs ds : Nat) (n : Nat) (out : Image)
    (_hlen : img.dataLen = img.extents.x * img.extents.y * img.extents.z * 4)
    (hc : (Context.compress ctx img sw ty es rs).1 = .ok n)
    (hd : (Context.decompress ((Context.compress ctx img sw ty es rs).2.1) n img.extents
        sw ty ds).1 = .ok out) :
    out.extents = img.extents ∧ out.dataLen = img.dataLen := by
  obtain ⟨hv, hn, h21, h22⟩ := compress_ok_elim ctx img sw ty es rs n hc
  rcases hde : error_code_to_result ds with e | u
  · rw [show (Context.decompress ((Context.compress ctx img sw ty es rs).2.1) n img.extents
        sw ty ds) = (.error e, (Context.compress ctx img sw ty es rs).2.1,
        [.decompressImage n img.extents.x img.extents.y img.extents.z ty.into_sys sw])
      from by simp [Context.decompress, hde]] at hd
    exact absurd hd (by simp)
  · rw [show (Context.decompress ((Context.compress ctx img sw ty es rs).2.1) n img.extents
        sw ty ds) = (.ok ⟨img.extents, requiredComponents img.extents⟩,
        (Context.compress ctx img sw ty es rs).2.1,
        [.decompressImage n img.extents.x img.extents.y img.extents.z ty.into_sys sw])
      from by simp [Context.decompress, hde]] at hd
    simp at hd
    rw [← hd]
    exact ⟨rfl, hv.symm⟩

/-- C6 witness: a 6x6x1 image with a 144-component buffer round-trips to an
image of the same extents and buffer length. -/
theorem compress_decompress_shape_witness :
    (⟨⟨6, 6, 1⟩, 144⟩ : Image).extents = (⟨⟨6, 6, 1⟩, 144⟩ : Image).extents ∧
    (⟨⟨6, 6, 1⟩, 144⟩ : Image).dataLen = (⟨⟨6, 6, 1⟩, 144⟩ : Image).dataLen :=
  compress_decompress_shape ⟨⟨4, 4, 1⟩, true⟩ ⟨⟨6, 6, 1⟩, 144⟩ Swizzle.rgba .U8
    ASTCENC_SUCCESS ASTCENC_SUCCESS ASTCENC_SUCCESS 64 ⟨⟨6, 6, 1⟩, 144⟩
    (by decide) rfl rfl
